import Mathlib

/-!
A shallow embedding of the symbolic logic engine of `logic.py`:
the expression data model (entities, terms, predicates, binders, operators),
substitution and beta-reduction (`subst_term`, `alpha_conversion`,
`subst_terms`, `subst_expr`, `apply`), text rendering (`__str__`), the
template lookup (`word2lf`) and the finite-model evaluator (`Model.eval`).

Conventions used throughout:
* Python `bool | None` becomes `Option Bool` (`none` is Python's `None`,
  the "undefined" evaluation outcome).
* Raised exceptions become `Except String`, carrying the message text.
* The `Entity` dataclasses use the defaults `eq=True, frozen=False`,
  which set `__hash__ = None`: entities are unhashable.  `dict.get`
  hashes its key before any comparison, even on an empty dictionary, so
  every entity-keyed lookup in `Model.eval` raises
  `TypeError: unhashable type: ...`, and `set.add` on an entity raises
  the same way; the evaluator's "undefined" lookup outcome is
  unreachable.
* Python dataclass equality (`==`) is structural equality.
-/

mutual

/-- `Entity` of `logic.py`: `Const`, `Var`, or an embedded formula `Wff`. -/
inductive Entity : Type where
  | const (name : String) : Entity
  | var (name : String) : Entity
  | wff (e : Expr) : Entity

/-- `Expr` of `logic.py`: `Term`, `Pred`, `Bind`, `Op`.
`Bind`'s variable field is declared `Var` in the Python source but is an
unchecked annotation: substitution can and does store arbitrary entities
there, so it is embedded as `Entity`. -/
inductive Expr : Type where
  | term (t : Entity) : Expr
  | pred (name : Entity) (args : List Entity) : Expr
  | bind (name : String) (var : Entity) (body : Expr) : Expr
  | op (name : String) (args : List Expr) : Expr

end

mutual

/-- Structural (Python dataclass) equality on entities. -/
def beqEntity : Entity → Entity → Bool
  | .const a, .const b => a == b
  | .var a, .var b => a == b
  | .wff a, .wff b => beqExpr a b
  | _, _ => false

/-- Structural (Python dataclass) equality on expressions. -/
def beqExpr : Expr → Expr → Bool
  | .term a, .term b => beqEntity a b
  | .pred n1 a1, .pred n2 a2 => beqEntity n1 n2 && beqEntityList a1 a2
  | .bind n1 v1 e1, .bind n2 v2 e2 => n1 == n2 && beqEntity v1 v2 && beqExpr e1 e2
  | .op n1 a1, .op n2 a2 => n1 == n2 && beqExprList a1 a2
  | _, _ => false

/-- Structural equality on entity lists. -/
def beqEntityList : List Entity → List Entity → Bool
  | [], [] => true
  | x :: xs, y :: ys => beqEntity x y && beqEntityList xs ys
  | _, _ => false

/-- Structural equality on expression lists. -/
def beqExprList : List Expr → List Expr → Bool
  | [], [] => true
  | x :: xs, y :: ys => beqExpr x y && beqExprList xs ys
  | _, _ => false

end

mutual

theorem beqEntity_iff : ∀ (a b : Entity), beqEntity a b = true ↔ a = b
  | .const _, .const _ => by simp [beqEntity]
  | .const _, .var _ => by simp [beqEntity]
  | .const _, .wff _ => by simp [beqEntity]
  | .var _, .const _ => by simp [beqEntity]
  | .var _, .var _ => by simp [beqEntity]
  | .var _, .wff _ => by simp [beqEntity]
  | .wff _, .const _ => by simp [beqEntity]
  | .wff _, .var _ => by simp [beqEntity]
  | .wff a, .wff b => by simp [beqEntity, beqExpr_iff a b]

theorem beqExpr_iff : ∀ (a b : Expr), beqExpr a b = true ↔ a = b
  | .term a, .term b => by simp [beqExpr, beqEntity_iff a b]
  | .term _, .pred _ _ => by simp [beqExpr]
  | .term _, .bind _ _ _ => by simp [beqExpr]
  | .term _, .op _ _ => by simp [beqExpr]
  | .pred _ _, .term _ => by simp [beqExpr]
  | .pred n1 a1, .pred n2 a2 => by
      simp [beqExpr, beqEntity_iff n1 n2, beqEntityList_iff a1 a2]
  | .pred _ _, .bind _ _ _ => by simp [beqExpr]
  | .pred _ _, .op _ _ => by simp [beqExpr]
  | .bind _ _ _, .term _ => by simp [beqExpr]
  | .bind _ _ _, .pred _ _ => by simp [beqExpr]
  | .bind n1 v1 e1, .bind n2 v2 e2 => by
      simp [beqExpr, beqEntity_iff v1 v2, beqExpr_iff e1 e2, and_assoc]
  | .bind _ _ _, .op _ _ => by simp [beqExpr]
  | .op _ _, .term _ => by simp [beqExpr]
  | .op _ _, .pred _ _ => by simp [beqExpr]
  | .op _ _, .bind _ _ _ => by simp [beqExpr]
  | .op n1 a1, .op n2 a2 => by simp [beqExpr, beqExprList_iff a1 a2]

theorem beqEntityList_iff : ∀ (a b : List Entity), beqEntityList a b = true ↔ a = b
  | [], [] => by simp [beqEntityList]
  | [], _ :: _ => by simp [beqEntityList]
  | _ :: _, [] => by simp [beqEntityList]
  | x :: xs, y :: ys => by
      simp [beqEntityList, beqEntity_iff x y, beqEntityList_iff xs ys]

theorem beqExprList_iff : ∀ (a b : List Expr), beqExprList a b = true ↔ a = b
  | [], [] => by simp [beqExprList]
  | [], _ :: _ => by simp [beqExprList]
  | _ :: _, [] => by simp [beqExprList]
  | x :: xs, y :: ys => by
      simp [beqExprList, beqExpr_iff x y, beqExprList_iff xs ys]

end

instance : DecidableEq Entity := fun a b => decidable_of_iff _ (beqEntity_iff a b)

instance : DecidableEq Expr := fun a b => decidable_of_iff _ (beqExpr_iff a b)

/-- Python `str.islower`-style "cased" test (ASCII is all that occurs here). -/
def pyCased (c : Char) : Bool := c.isLower || c.isUpper

/-- Python `str.islower`: at least one cased character and no uppercase one. -/
def pyIsLower (s : String) : Bool :=
  s.data.any pyCased && !(s.data.any Char.isUpper)

/-- Python `str.isupper`: at least one cased character and no lowercase one. -/
def pyIsUpper (s : String) : Bool :=
  s.data.any pyCased && !(s.data.any Char.isLower)

/-- Python truthiness of a `bool | None` value: only `True` is truthy. -/
def truthy : Option Bool → Bool
  | some true => true
  | _ => false

/-- Python `not` on a `bool | None` value (`not None` is `True`). -/
def pyNot : Option Bool → Bool
  | some true => false
  | _ => true

/-- `subst_term` of `logic.py`: replace `term` by `w` when it equals `v`. -/
def subst_term (v w term : Entity) : Entity :=
  if v = term then w else term

mutual

/-- `alpha_conversion` of `logic.py`: rename `v` to `w` through binders,
operators and predicate arguments; all other shapes (in particular `Term`)
are returned unchanged. -/
def alpha_conversion (v w : Entity) : Expr → Expr
  | .bind name var body =>
      .bind name (subst_term v w var) (alpha_conversion v w body)
  | .op name args => .op name (alpha_conversion_list v w args)
  | .pred name args => .pred name (args.map (subst_term v w))
  | e => e

/-- The list comprehension in `alpha_conversion`'s `Op` case. -/
def alpha_conversion_list (v w : Entity) : List Expr → List Expr
  | [] => []
  | a :: as => alpha_conversion v w a :: alpha_conversion_list v w as

end

mutual

/-- Size of the expression skeleton, blind to the entities stored at the
leaves; entity rewriting (`subst_term`, `alpha_conversion`) preserves it. -/
def exprMeasure : Expr → Nat
  | .term _ => 0
  | .pred _ _ => 0
  | .bind _ _ body => 1 + exprMeasure body
  | .op _ args => 1 + exprMeasureList args

/-- Skeleton size of a list of expressions. -/
def exprMeasureList : List Expr → Nat
  | [] => 0
  | a :: as => 1 + exprMeasure a + exprMeasureList as

end

mutual

theorem exprMeasure_alpha (v w : Entity) :
    ∀ e : Expr, exprMeasure (alpha_conversion v w e) = exprMeasure e
  | .term _ => by simp [alpha_conversion, exprMeasure]
  | .pred _ _ => by simp [alpha_conversion, exprMeasure]
  | .bind n x body => by
      simp [alpha_conversion, exprMeasure, exprMeasure_alpha v w body]
  | .op n args => by
      simp [alpha_conversion, exprMeasure, exprMeasureList_alpha v w args]

theorem exprMeasureList_alpha (v w : Entity) :
    ∀ es : List Expr,
      exprMeasureList (alpha_conversion_list v w es) = exprMeasureList es
  | [] => by simp [alpha_conversion_list]
  | a :: as => by
      simp [alpha_conversion_list, exprMeasureList, exprMeasure_alpha v w a,
        exprMeasureList_alpha v w as]

end

mutual

/-- `subst_terms` of `logic.py`: substitute entity `w` for entity `v`.
When a binder's bound variable equals the replacement `w`, the body is
alpha-converted to the fixed scratch variable `Var('v')`, substituted, and
the scratch variable is then alpha-converted to the target `v`. -/
def subst_terms (v w : Entity) : Expr → Expr
  | .op name args => .op name (subst_terms_list v w args)
  | .bind name var body =>
      if var = w then
        .bind name var
          (alpha_conversion (.var "v") v
            (subst_terms v w (alpha_conversion var (.var "v") body)))
      else
        .bind name (subst_term v w var) (subst_terms v w body)
  | .pred name args => .pred name (args.map (subst_term v w))
  | .term t => .term (subst_term v w t)
termination_by e => exprMeasure e
decreasing_by
  all_goals simp [exprMeasure, exprMeasureList, exprMeasure_alpha]

/-- The list comprehension in `subst_terms`'s `Op` case. -/
def subst_terms_list (v w : Entity) : List Expr → List Expr
  | [] => []
  | a :: as => subst_terms v w a :: subst_terms_list v w as
termination_by es => exprMeasureList es
decreasing_by
  all_goals simp [exprMeasure, exprMeasureList]
  all_goals omega

end

/-- `apply` of `logic.py`, specialised to a `Term` second component.
Only the substitution in `subst_expr` calls `apply` this way, and on such a
pair `apply` either fires its `Bind`-then-`Term` rule or fails, without any
further recursion; factoring that restriction out makes the recursion in
`subst_expr` visibly well-founded.  `apply_term_spec` below proves this
function equal to `apply` on every such pair. -/
def applyTerm (f : Expr) (t : Entity) : Except String Expr :=
  match f with
  | .bind "\\" (.var name) body =>
      if pyIsLower name then .ok (subst_terms (.var name) t body)
      else .error "AppError: Invalid types for function application."
  | _ => .error "AppError: Invalid types for function application."

mutual

/-- `subst_expr` of `logic.py`: substitute expression `w` for entity `v`,
applying `w` to the arguments of any predicate whose head equals `v` and
replacing matching `Term` contents; raises on predicates of arity other
than 1 or 2 whose head matches. -/
def subst_expr (v : Entity) (w : Expr) : Expr → Except String Expr
  | .bind name var body =>
      match subst_expr v w body with
      | .ok body' => .ok (.bind name var body')
      | .error msg => .error msg
  | .pred name args =>
      if v = name then
        match args with
        | [arg] => applyTerm w arg
        | [arg1, arg2] =>
            match applyTerm w arg1 with
            | .ok w' => applyTerm w' arg2
            | .error msg => .error msg
        | _ => .error "Invalid arity for predicate in expression substitution."
      else .ok (.pred name args)
  | .op name args =>
      match subst_expr_list v w args with
      | .ok args' => .ok (.op name args')
      | .error msg => .error msg
  | .term (.wff e) =>
      match subst_expr v w e with
      | .ok e' => .ok (.term (.wff e'))
      | .error msg => .error msg
  | .term t => if v = t then .ok w else .ok (.term t)

/-- The list comprehension in `subst_expr`'s `Op` case (a raised exception
aborts the whole comprehension, left to right). -/
def subst_expr_list (v : Entity) (w : Expr) : List Expr → Except String (List Expr)
  | [] => .ok []
  | a :: as =>
      match subst_expr v w a with
      | .ok a' =>
          match subst_expr_list v w as with
          | .ok as' => .ok (a' :: as')
          | .error msg => .error msg
      | .error msg => .error msg

end

/-- `apply` of `logic.py`: beta-reduction dispatching on the shapes and the
variable-case convention of its two operands.  (The `print('---')` debug
output in the source's second rule is outside the value semantics.) -/
def apply : Expr × Expr → Except String Expr
  | (.term t, .bind "\\" (.var name) body) =>
      if pyIsLower name then .ok (subst_terms (.var name) t body)
      else .error "AppError: Invalid types for function application."
  | (.bind "\\" (.var name) body, .term t) =>
      if pyIsLower name then .ok (subst_terms (.var name) t body)
      else .error "AppError: Invalid types for function application."
  | (.bind "\\" (.var name1) body1, .bind "\\" (.var name2) body2) =>
      if (pyIsUpper name1 && pyIsLower name2) || (pyIsLower name1 && pyIsUpper name2) then
        subst_expr (.var name1) (.bind "\\" (.var name2) body2) body1
      else .error "AppError: Invalid types for function application."
  | _ => .error "AppError: Invalid types for function application."

/-- `applyTerm` agrees with `apply` on every pair whose second component is
a `Term`, so `subst_expr` above makes exactly the calls the source makes. -/
theorem apply_term_spec (f : Expr) (t : Entity) :
    apply (f, .term t) = applyTerm f t := by
  cases f with
  | term _ => rfl
  | pred _ _ => rfl
  | op _ _ => rfl
  | bind name var body =>
      by_cases h : name = "\\"
      · subst h
        cases var with
        | const _ => rfl
        | wff _ => rfl
        | var vn => rfl
      · simp [apply, applyTerm, h]

/-- `__str__` of the `Entity` variants in `logic.py`.  `Const` and `Var`
render as their name; `Wff.__str__` returns `str(expr)` where `expr` is an
unbound (bare) name, so rendering a `Wff` raises a `NameError`. -/
def strEntity : Entity → Except String String
  | .const n => .ok n
  | .var n => .ok n
  | .wff _ => .error "NameError: name 'expr' is not defined"

/-- The argument-rendering list comprehension in `Pred.__str__` (a raised
`NameError` from a `Wff` argument aborts the whole comprehension). -/
def strEntityList : List Entity → Except String (List String)
  | [] => .ok []
  | a :: as =>
      match strEntity a with
      | .error msg => .error msg
      | .ok s =>
          match strEntityList as with
          | .error msg => .error msg
          | .ok ss => .ok (s :: ss)

/-- `__str__` of the `Expr` variants in `logic.py`.  `Term.__str__` matches
on the bare name `term` and so raises a `NameError`; a `Pred` renders as
`name(arg1, arg2, ...)` (just `name` when there are no arguments); a `Bind`
renders as `tag var[body]` when the body is an `Op` and `tag var.body`
otherwise; an `Op` of arity 1 renders prefix, arity 2 infix with single
spaces, and any other arity raises the `ArityError`. -/
def strExpr : Expr → Except String String
  | .term _ => .error "NameError: name 'term' is not defined"
  | .pred name args =>
      match strEntity name with
      | .error msg => .error msg
      | .ok n =>
          match args with
          | [] => .ok n
          | _ =>
              match strEntityList args with
              | .error msg => .error msg
              | .ok ss => .ok (n ++ "(" ++ String.intercalate ", " ss ++ ")")
  | .bind name var (.op oname oargs) =>
      match strEntity var with
      | .error msg => .error msg
      | .ok v =>
          match strExpr (.op oname oargs) with
          | .error msg => .error msg
          | .ok b => .ok (name ++ v ++ "[" ++ b ++ "]")
  | .bind name var body =>
      match strEntity var with
      | .error msg => .error msg
      | .ok v =>
          match strExpr body with
          | .error msg => .error msg
          | .ok b => .ok (name ++ v ++ "." ++ b)
  | .op name args =>
      match args with
      | [a] =>
          match strExpr a with
          | .error msg => .error msg
          | .ok s => .ok (name ++ s)
      | [a, b] =>
          match strExpr a with
          | .error msg => .error msg
          | .ok sa =>
              match strExpr b with
              | .error msg => .error msg
              | .ok sb => .ok (sa ++ " " ++ name ++ " " ++ sb)
      | _ => .error "ArityError: Invalid arity for predicate."

/-- `Model.word2lf` of `logic.py` (it never reads `self`): translate a
category description plus lemma into an expression skeleton.  The inner
`match lemma` of the determiner rule is rendered as an `if`-chain
(`'a' | 'an'` is an or-pattern); an unmatched category yields "no
expression" (`none`), an unsupported determiner lemma raises. -/
def word2lf (cat : List (String × String)) (lemm : String) : Except String (Option Expr) :=
  match cat with
  | [("sel", "d"), ("sel", "d"), ("cat", "v")] =>
      .ok (some (.bind "\\" (.var "y")
        (.bind "\\" (.var "x") (.pred (.const lemm) [.var "x", .var "y"]))))
  | [("sel", "j"), ("sel", "d"), ("cat", "v")] =>
      .ok (some (.bind "\\" (.var "P") (.pred (.var "P") [])))
  | [("sel", "d"), ("cat", "v")] =>
      .ok (some (.bind "\\" (.var "x") (.pred (.const lemm) [.var "x", .var "y"])))
  | ("cat", "d") :: _ => .ok (some (.term (.const lemm)))
  | ("cat", "n") :: _ =>
      .ok (some (.bind "\\" (.var "x") (.pred (.const lemm) [.var "x"])))
  | [("cat", "j")] =>
      .ok (some (.bind "\\" (.var "x") (.pred (.const lemm) [.var "x"])))
  | [("sel", "n"), ("cat", "j")] =>
      .ok (some (.bind "\\" (.var "P") (.bind "\\" (.var "x")
        (.op "&" [.pred (.var "P") [.var "x"], .pred (.const lemm) [.var "x"]]))))
  | ("sel", "n") :: ("cat", "d") :: _ =>
      if lemm = "every" then
        .ok (some (.bind "\\" (.var "P") (.bind "\\" (.var "Q")
          (.bind "@" (.var "x")
            (.op "->" [.pred (.const "P") [.var "x"], .pred (.const "Q") [.var "x"]])))))
      else if lemm = "a" ∨ lemm = "an" then
        .ok (some (.bind "\\" (.var "P") (.bind "\\" (.var "Q")
          (.bind "#" (.var "x")
            (.op "&" [.pred (.const "P") [.var "x"], .pred (.const "Q") [.var "x"]])))))
      else .error ("Current determiner " ++ lemm ++ " is unimplemented.")
  | _ => .ok none

/-- The category descriptions that match one of `word2lf`'s eight template
rules (everything else falls through to "no expression"). -/
def matchesTemplate (cat : List (String × String)) : Bool :=
  match cat with
  | [("sel", "d"), ("sel", "d"), ("cat", "v")] => true
  | [("sel", "j"), ("sel", "d"), ("cat", "v")] => true
  | [("sel", "d"), ("cat", "v")] => true
  | ("cat", "d") :: _ => true
  | ("cat", "n") :: _ => true
  | [("cat", "j")] => true
  | [("sel", "n"), ("cat", "j")] => true
  | ("sel", "n") :: ("cat", "d") :: _ => true
  | _ => false

/-- Body of the universal-determiner skeleton `word2lf` builds for
`every`: `λQ.∀x[P(x) -> Q(x)]` with constant predicate heads `P`, `Q`. -/
def everyBody : Expr :=
  .bind "\\" (.var "Q") (.bind "@" (.var "x")
    (.op "->" [.pred (.const "P") [.var "x"], .pred (.const "Q") [.var "x"]]))

/-- The full `every` skeleton `λP.λQ.∀x[P(x) -> Q(x)]`. -/
def everySkel : Expr := .bind "\\" (.var "P") everyBody

/-- Body of the existential-determiner skeleton `word2lf` builds for
`a`/`an`: `λQ.∃x[P(x) & Q(x)]` with constant predicate heads `P`, `Q`. -/
def aBody : Expr :=
  .bind "\\" (.var "Q") (.bind "#" (.var "x")
    (.op "&" [.pred (.const "P") [.var "x"], .pred (.const "Q") [.var "x"]]))

/-- The full `a`/`an` skeleton `λP.λQ.∃x[P(x) & Q(x)]`. -/
def aSkel : Expr := .bind "\\" (.var "P") aBody

mutual

theorem exprMeasure_subst_terms (v w : Entity) :
    ∀ e : Expr, exprMeasure (subst_terms v w e) = exprMeasure e
  | .term _ => by simp [subst_terms, exprMeasure]
  | .pred _ _ => by simp [subst_terms, exprMeasure]
  | .bind n x body => by
      by_cases h : x = w
      · simp [subst_terms, h, exprMeasure, exprMeasure_alpha,
          exprMeasure_subst_terms v w (alpha_conversion w (.var "v") body)]
      · simp [subst_terms, h, exprMeasure, exprMeasure_subst_terms v w body]
  | .op n args => by
      simp [subst_terms, exprMeasure, exprMeasureList_subst_terms v w args]
termination_by e => exprMeasure e
decreasing_by
  all_goals simp [exprMeasure, exprMeasureList, exprMeasure_alpha]

theorem exprMeasureList_subst_terms (v w : Entity) :
    ∀ es : List Expr,
      exprMeasureList (subst_terms_list v w es) = exprMeasureList es
  | [] => by simp [subst_terms_list]
  | a :: as => by
      simp [subst_terms_list, exprMeasureList, exprMeasure_subst_terms v w a,
        exprMeasureList_subst_terms v w as]
termination_by es => exprMeasureList es
decreasing_by
  all_goals simp [exprMeasure, exprMeasureList]
  all_goals omega

end

/-- Python's name for the class of an entity, as it appears in the
`TypeError: unhashable type` message raised when the entity is hashed. -/
def pyClassName : Entity → String
  | .const _ => "Const"
  | .var _ => "Var"
  | .wff _ => "Wff"

/-- The `Model` class of `logic.py`: a domain of entities plus unary and
binary extension tables.  The attributes are annotated `set[Entity]` and
`dict[str, ...]`, so the outer tables are modelled with string keys and
the domain as the list it is iterated in.  In CPython only the empty
domain and empty inner tables are constructible (`set.add` and dictionary
display hash the entity, and the `Entity` dataclasses are unhashable),
and `eval` never successfully reads the tables at all — its lookups hash
the predicate-head entity and raise first — so the table contents are
inert data; the structure keeps them so the class's state is represented
in full. -/
structure Model where
  entities : List Entity
  unaries : List (String × List (Entity × Bool))
  binaries : List (String × List (Entity × List (Entity × Bool)))

mutual

/-- `Model.eval` of `logic.py`.  `and`/`not`/`or` follow Python truthiness
on `bool | None` (`None` is falsy and `not None` is `True`; `and`/`or`
short-circuit and return an operand, not necessarily a `bool`).  The unary
and binary predicate cases execute `self.unaries.get(name, None)` /
`self.binaries.get(name, None)` with `name` the predicate-head entity;
`dict.get` hashes its key before any comparison, even on an empty
dictionary, and the `Entity` dataclasses have `__hash__ = None`, so these
cases unconditionally raise `TypeError: unhashable type: ...` — the
"undefined" lookup outcome described in the design document is
unreachable.  The `#`/`@` binders evaluate the body with each domain
entity substituted for the bound variable and apply Python `any`/`all`
(over an empty domain: `False`/`True` without ever evaluating the
body). -/
def Model.eval (m : Model) : Expr → Except String (Option Bool)
  | .op "&" [arg1, arg2] =>
      match m.eval arg1 with
      | .error msg => .error msg
      | .ok (some true) => m.eval arg2
      | .ok (some false) => .ok (some false)
      | .ok none => .ok none
  | .op "->" [arg1, arg2] =>
      match m.eval arg1 with
      | .error msg => .error msg
      | .ok v1 => if pyNot v1 then .ok (some true) else m.eval arg2
  | .pred name [_] =>
      .error ("TypeError: unhashable type: '" ++ pyClassName name ++ "'")
  | .pred name [_, _] =>
      .error ("TypeError: unhashable type: '" ++ pyClassName name ++ "'")
  | .bind "\\" _ _ => .error "No lambdas allowed."
  | .bind "#" var body =>
      match evalSubstList m var body m.entities with
      | .error msg => .error msg
      | .ok vs => .ok (some (vs.any truthy))
  | .bind "@" var body =>
      match evalSubstList m var body m.entities with
      | .error msg => .error msg
      | .ok vs => .ok (some (vs.all truthy))
  | .bind _ _ _ => .error "EvalError: Binder not found."
  | _ => .error "EvalError: Cannot evaluate."
termination_by e => (exprMeasure e, m.entities.length + 1)
decreasing_by
  all_goals
    simp [exprMeasure, exprMeasureList]
    first
      | exact Prod.Lex.left _ _ (by omega)
      | exact Prod.Lex.right _ (by omega)

/-- The list comprehension inside the `#`/`@` cases of `Model.eval`: the
body with each entity substituted for the bound variable is evaluated, in
domain order, before `any`/`all` is taken; a raised exception aborts the
whole comprehension. -/
def evalSubstList (m : Model) (var : Entity) (body : Expr) :
    List Entity → Except String (List (Option Bool))
  | [] => .ok []
  | e :: rest =>
      match Model.eval m (subst_terms var e body) with
      | .error msg => .error msg
      | .ok v =>
          match evalSubstList m var body rest with
          | .error msg => .error msg
          | .ok vs => .ok (v :: vs)
termination_by es => (1 + exprMeasure body, es.length)
decreasing_by
  all_goals
    simp [exprMeasure, exprMeasureList, exprMeasure_subst_terms]
    first
      | exact Prod.Lex.left _ _ (by omega)
      | exact Prod.Lex.right _ (by omega)

end

theorem pyIsUpper_P : pyIsUpper "P" = true := by decide

theorem pyIsLower_P : pyIsLower "P" = false := by decide

mutual

/-- The part of an expression that `subst_terms` and `alpha_conversion`
never rewrite: the tree of constructors with all binder/operator name tags
and all predicate head entities, with the rewritable entity positions
(predicate arguments, binder bound variables, `Term` contents) blanked. -/
def headShape : Expr → Expr
  | .term _ => .term (.const "")
  | .pred name args => .pred name (args.map (fun _ => .const ""))
  | .bind name _ body => .bind name (.const "") (headShape body)
  | .op name args => .op name (headShapeList args)

/-- `headShape` mapped over a list of expressions. -/
def headShapeList : List Expr → List Expr
  | [] => []
  | a :: as => headShape a :: headShapeList as

end

mutual

theorem headShape_alpha (v w : Entity) :
    ∀ e : Expr, headShape (alpha_conversion v w e) = headShape e
  | .term _ => by simp [alpha_conversion]
  | .pred _ _ => by
      simp [alpha_conversion, headShape, List.map_map, Function.comp_def]
  | .bind n x body => by
      simp [alpha_conversion, headShape, headShape_alpha v w body]
  | .op n args => by
      simp [alpha_conversion, headShape, headShapeList_alpha v w args]

theorem headShapeList_alpha (v w : Entity) :
    ∀ es : List Expr, headShapeList (alpha_conversion_list v w es) = headShapeList es
  | [] => by simp [alpha_conversion_list]
  | a :: as => by
      simp [alpha_conversion_list, headShapeList, headShape_alpha v w a,
        headShapeList_alpha v w as]

end

mutual

theorem headShape_subst_terms (v w : Entity) :
    ∀ e : Expr, headShape (subst_terms v w e) = headShape e
  | .term _ => by simp [subst_terms, headShape]
  | .pred _ _ => by
      simp [subst_terms, headShape, List.map_map, Function.comp_def]
  | .bind n x body => by
      by_cases h : x = w
      · simp [subst_terms, h, headShape, headShape_alpha,
          headShape_subst_terms v w (alpha_conversion w (.var "v") body)]
      · simp [subst_terms, h, headShape, headShape_subst_terms v w body]
  | .op n args => by
      simp [subst_terms, headShape, headShapeList_subst_terms v w args]
termination_by e => exprMeasure e
decreasing_by
  all_goals simp [exprMeasure, exprMeasureList, exprMeasure_alpha]

theorem headShapeList_subst_terms (v w : Entity) :
    ∀ es : List Expr, headShapeList (subst_terms_list v w es) = headShapeList es
  | [] => by simp [subst_terms_list]
  | a :: as => by
      simp [subst_terms_list, headShapeList, headShape_subst_terms v w a,
        headShapeList_subst_terms v w as]
termination_by es => exprMeasureList es
decreasing_by
  all_goals simp [exprMeasure, exprMeasureList]
  all_goals omega

end

/-- Every successful evaluation outcome is a boolean.  With the predicate
cases raising on their unhashable head entities, no expression ever
evaluates to the "undefined" (`None`) outcome: the `&`/`->` cases can only
pass an operand's `None` on, the `#`/`@` cases wrap a `bool`, and every
other case raises. -/
theorem eval_ok_some (m : Model) (e : Expr) (v : Option Bool)
    (h : m.eval e = .ok v) : ∃ b : Bool, v = some b := by
  rw [Model.eval.eq_def] at h
  split at h
  · -- Op "&" [arg1, arg2]
    next arg1 arg2 =>
      split at h
      · exact absurd h (by simp)
      · exact eval_ok_some m arg2 v h
      · exact ⟨false, by injection h with h1; exact h1.symm⟩
      · next heq =>
          obtain ⟨b, hb⟩ := eval_ok_some m arg1 none heq
          cases hb
  · -- Op "->" [arg1, arg2]
    next arg1 arg2 =>
      split at h
      · exact absurd h (by simp)
      · split at h
        · exact ⟨true, by injection h with h1; exact h1.symm⟩
        · exact eval_ok_some m arg2 v h
  · exact absurd h (by simp)
  · exact absurd h (by simp)
  · exact absurd h (by simp)
  · -- Bind "#"
    split at h
    · exact absurd h (by simp)
    · next vs heq => exact ⟨vs.any truthy, by injection h with h1; exact h1.symm⟩
  · -- Bind "@"
    split at h
    · exact absurd h (by simp)
    · next vs heq => exact ⟨vs.all truthy, by injection h with h1; exact h1.symm⟩
  · exact absurd h (by simp)
  · exact absurd h (by simp)
termination_by exprMeasure e
decreasing_by
  all_goals subst_vars
  all_goals simp [exprMeasure, exprMeasureList]
  all_goals omega

/-- Claim C1 (code bug).  The claim says a universal `Bind('@', x, body)`
over a populated Model evaluates to true iff every domain entity makes the
substituted body evaluate to something that is not false, an undefined
body not falsifying it.  The `Entity` dataclasses are unhashable, so
evaluating any substituted body predicate raises
`TypeError: unhashable type: 'Const'` at `self.unaries.get(name)`: over a
populated domain the universal never returns a truth value at all (and the
populated domain itself cannot be built in CPython, since `set.add` hashes
the entity too).  The only reachable universal behaviour is over the empty
domain, where `all([])` gives `True` without ever evaluating the body. -/
theorem c1_universal_raises :
    Model.eval ⟨[.const "a"], [], []⟩
      (.bind "@" (.var "x") (.pred (.const "p") [.var "x"]))
      = .error "TypeError: unhashable type: 'Const'"
    ∧ (∀ (u : List (String × List (Entity × Bool)))
        (b : List (String × List (Entity × List (Entity × Bool))))
        (x : Entity) (body : Expr),
        Model.eval ⟨[], u, b⟩ (.bind "@" x body) = .ok (some true)) := by
  constructor
  · simp [Model.eval, evalSubstList, subst_terms, subst_term, pyClassName]
  · intro u b x body
    simp [Model.eval, evalSubstList]

/-- Claim C2 (code bug).  The claim says an undefined operand makes a
conjunction or implication evaluate to undefined, never to true or false.
Evaluating either operand `p(c)` raises
`TypeError: unhashable type: 'Const'` at `self.unaries.get(name)` before
any truthiness logic runs, so both compounds raise as well; moreover every
successful evaluation outcome is a boolean (final conjunct), so no operand
can evaluate to undefined at all — the propagation policy the design
document states is unreachable in the program. -/
theorem c2_compound_raises :
    Model.eval ⟨[], [], []⟩ (.pred (.const "p") [.const "c"])
      = .error "TypeError: unhashable type: 'Const'"
    ∧ Model.eval ⟨[], [], []⟩
        (.op "->" [.pred (.const "p") [.const "c"], .pred (.const "p") [.const "c"]])
      = .error "TypeError: unhashable type: 'Const'"
    ∧ Model.eval ⟨[], [], []⟩
        (.op "&" [.pred (.const "p") [.const "c"], .pred (.const "p") [.const "c"]])
      = .error "TypeError: unhashable type: 'Const'"
    ∧ (∀ (m : Model) (e : Expr) (v : Option Bool),
        m.eval e = .ok v → ∃ b : Bool, v = some b) := by
  refine ⟨?_, ?_, ?_, fun m e v h => eval_ok_some m e v h⟩
  · simp [Model.eval, pyClassName]
  · simp [Model.eval, pyClassName]
  · simp [Model.eval, pyClassName]

/-- Claim C2 (witness).  Over the empty domain the universal evaluates
successfully, and its outcome is a boolean as the final conjunct of the
claim theorem states. -/
theorem c2_compound_raises_witness :
    Model.eval ⟨[], [], []⟩ (.bind "@" (.var "x") (.term (.const "t")))
      = .ok (some true)
    ∧ ∃ b : Bool, (some true : Option Bool) = some b :=
  ⟨by simp [Model.eval, evalSubstList],
   c2_compound_raises.2.2.2 ⟨[], [], []⟩ (.bind "@" (.var "x") (.term (.const "t")))
     (some true) (by simp [Model.eval, evalSubstList])⟩

/-- Claim C3 (code bug).  The claim says an existential over a binary
predicate whose table is empty or absent evaluates to undefined, not
false.  Evaluating the existential over a populated domain raises
`TypeError: unhashable type: 'Const'` at `self.binaries.get(name)` while
the first substituted body instance is evaluated, before `any` ever runs
(and neither the entity domain nor an entity-keyed table can be
constructed in CPython in the first place).  Over the empty domain — the
only constructible one — the existential returns `False` without
evaluating the body, whatever the tables hold. -/
theorem c3_existential_raises :
    Model.eval ⟨[.const "a"], [], []⟩
      (.bind "#" (.var "x") (.pred (.const "knows") [.const "a", .var "x"]))
      = .error "TypeError: unhashable type: 'Const'"
    ∧ (∀ (u : List (String × List (Entity × Bool)))
        (b : List (String × List (Entity × List (Entity × Bool))))
        (x : Entity) (body : Expr),
        Model.eval ⟨[], u, b⟩ (.bind "#" x body) = .ok (some false)) := by
  constructor
  · simp [Model.eval, evalSubstList, subst_terms, subst_term, pyClassName]
  · intro u b x body
    simp [Model.eval, evalSubstList]

/-- Claim C4 (code bug).  The claim says that at a binder whose bound
variable equals the replacement, `subst_terms` alpha-converts to a scratch
name disjoint from both target and replacement, substitutes, and converts
the scratch name back to the original bound variable, so the replacement
is never captured.  Evaluating the code at the failing input
`subst_terms(x, y, λy.p(x, y))` gives `λy.p(y, x)`: the scratch name is
the fixed `Var('v')`, the third step converts the scratch back to the
*target* `x` (so the originally bound occurrence of `y` escapes as a free
`x`), and the substituted replacement `y` is captured by the binder. -/
theorem c4_capture_failure :
    subst_terms (.var "x") (.var "y")
      (.bind "\\" (.var "y") (.pred (.const "p") [.var "x", .var "y"]))
    = .bind "\\" (.var "y") (.pred (.const "p") [.var "y", .var "x"]) := by
  simp [subst_terms, alpha_conversion, subst_term]

/-- Claim C5 (code bug).  The claim (and §8 of the design document) says
substituting `y` for the outer `x` in `λx.λx.p(x)` must not alter the
inner shadowing binder or its bound occurrence.  The code substitutes into
binder positions as well (`var = subst_term(v, w, var)`), so evaluating it
at the failing input rewrites everything: the result is `λy.λy.p(y)`. -/
theorem c5_shadowing_renamed :
    subst_terms (.var "x") (.var "y")
      (.bind "\\" (.var "x") (.bind "\\" (.var "x") (.pred (.const "p") [.var "x"])))
    = .bind "\\" (.var "y") (.bind "\\" (.var "y") (.pred (.const "p") [.var "y"])) := by
  simp [subst_terms, alpha_conversion, subst_term]

/-- Claim C6 (confirmed).  Applying the lambda-abstraction
`Bind('\\', Var('x'), Pred(Const('know'), [Var('x'), Var('y')]))` to
`Term(Const('mary'))` yields
`Pred(Const('know'), [Const('mary'), Var('y')])`, which renders as
`know(mary, y)`. -/
theorem c6_beta_reduction_example :
    apply (.bind "\\" (.var "x") (.pred (.const "know") [.var "x", .var "y"]),
        .term (.const "mary"))
      = .ok (.pred (.const "know") [.const "mary", .var "y"])
    ∧ strExpr (.pred (.const "know") [.const "mary", .var "y"]) = .ok "know(mary, y)" := by
  constructor
  · simp [apply, pyIsLower, pyCased, subst_terms, subst_term]
  · simp [strExpr, strEntity, strEntityList]
    rfl

/-- Claim C7 (counterexample).  The claim says constructing an `Op` with an
argument list of length other than 1 or 2 fails at construction time with
an `ArityError`.  In the source, `Op` is a plain dataclass with no
constructor-time check: `Op('&', [a, b, c])` is a perfectly well-formed
value (as this statement's left-hand side shows by mentioning it), and the
`ArityError` is raised only when the value is rendered by `__str__`. -/
theorem c7_counterexample :
    strExpr (.op "&" [.term (.const "a"), .term (.const "b"), .term (.const "c")])
      = .error "ArityError: Invalid arity for predicate." := by
  simp [strExpr]

/-- Claim C7 (amended).  Constructing an `Op` with an argument list of
length other than 1 or 2 succeeds; the `ArityError` is raised when the
operator is rendered (`__str__`), before any argument is rendered. -/
theorem c7_arity_error_at_render (name : String) (args : List Expr)
    (h1 : args.length ≠ 1) (h2 : args.length ≠ 2) :
    strExpr (.op name args) = .error "ArityError: Invalid arity for predicate." := by
  match args with
  | [] => simp [strExpr]
  | [a] => exact absurd rfl h1
  | [a, b] => exact absurd rfl h2
  | a :: b :: c :: rest => simp [strExpr]

/-- Claim C7 (witness).  Rendering a four-argument conjunction raises the
`ArityError`. -/
theorem c7_arity_error_at_render_witness :
    strExpr (.op "&" [.term (.const "a"), .term (.const "b"), .term (.const "c"),
        .term (.const "d")])
      = .error "ArityError: Invalid arity for predicate." :=
  c7_arity_error_at_render "&" _ (by simp) (by simp)

/-- Claim C8 (confirmed).  The determiner template
`[('sel','n'), ('cat','d'), ...]` raises the unsupported-determiner error
for every lemma other than `every`, `a`, or `an`, while a category
description matching none of the eight template rules yields "no
expression" (`none`) instead of raising. -/
theorem c8_determiner_templates :
    (∀ (lemm : String) (rest : List (String × String)),
        lemm ≠ "every" → lemm ≠ "a" → lemm ≠ "an" →
        word2lf (("sel", "n") :: ("cat", "d") :: rest) lemm
          = .error ("Current determiner " ++ lemm ++ " is unimplemented."))
    ∧ (∀ (cat : List (String × String)) (lemm : String),
        matchesTemplate cat = false → word2lf cat lemm = .ok none) := by
  constructor
  · intro lemm rest h1 h2 h3
    simp [word2lf, h1, h2, h3]
  · intro cat lemm h
    unfold word2lf
    split <;> first | rfl | simp_all [matchesTemplate]

/-- Claim C8 (witness).  The determiner lemma `the` raises the
unsupported-determiner error, and the unmatched category `[('cat','z')]`
yields "no expression". -/
theorem c8_determiner_templates_witness :
    word2lf [("sel", "n"), ("cat", "d")] "the"
      = .error "Current determiner the is unimplemented."
    ∧ word2lf [("cat", "z")] "dog" = .ok none :=
  ⟨c8_determiner_templates.1 "the" [] (by simp) (by simp) (by simp),
   c8_determiner_templates.2 [("cat", "z")] "dog" (by simp [matchesTemplate])⟩

/-- Claim C9 (confirmed).  `subst_expr` with a variable `v` leaves a
predicate whose head is a constant unchanged even when the constant's name
string equals `v`'s name (a `Var` never equals a `Const` under dataclass
equality); consequently applying the determiner skeletons built by
`word2lf` (whose `P` and `Q` predicate heads are constants) to any
lambda-abstraction over a lowercase variable returns the quantifier body
with no predicate substituted. -/
theorem c9_const_head_pred_untouched :
    (∀ (s : String) (w : Expr) (p : String) (args : List Entity),
        subst_expr (.var s) w (.pred (.const p) args) = .ok (.pred (.const p) args))
    ∧ (∀ (n2 : String) (b2 : Expr), pyIsLower n2 = true →
        word2lf [("sel", "n"), ("cat", "d")] "every" = .ok (some everySkel)
        ∧ apply (everySkel, .bind "\\" (.var n2) b2) = .ok everyBody
        ∧ word2lf [("sel", "n"), ("cat", "d")] "a" = .ok (some aSkel)
        ∧ apply (aSkel, .bind "\\" (.var n2) b2) = .ok aBody) := by
  constructor
  · intro s w p args
    simp [subst_expr]
  · intro n2 b2 h
    refine ⟨by simp [word2lf, everySkel, everyBody], ?_,
      by simp [word2lf, aSkel, aBody], ?_⟩
    · simp [apply, everySkel, everyBody, pyIsUpper_P, pyIsLower_P, h,
        subst_expr, subst_expr_list]
    · simp [apply, aSkel, aBody, pyIsUpper_P, pyIsLower_P, h,
        subst_expr, subst_expr_list]

/-- Claim C9 (witness).  Applying the `every` skeleton to `λx.man(x)`
returns the quantifier body `λQ.∀x[P(x) -> Q(x)]` unchanged. -/
theorem c9_const_head_pred_untouched_witness :
    apply (everySkel, .bind "\\" (.var "x") (.pred (.const "man") [.var "x"]))
      = .ok everyBody :=
  ((c9_const_head_pred_untouched).2 "x" (.pred (.const "man") [.var "x"])
    (by decide)).2.1

/-- Claim C10 (confirmed).  For all entities `v` and `w` and every
expression `e`, `subst_terms` and `alpha_conversion` preserve the
expression's head shape: the constructor tree, every binder and operator
name tag, and every predicate head entity are unchanged — only predicate
argument lists, binder bound variables, binder bodies, and `Term` contents
are rewritten. -/
theorem c10_pred_heads_preserved (v w : Entity) (e : Expr) :
    headShape (subst_terms v w e) = headShape e
    ∧ headShape (alpha_conversion v w e) = headShape e :=
  ⟨headShape_subst_terms v w e, headShape_alpha v w e⟩
